import Mathlib

/-!
Verification of the bridge-transfer validation logic of the Venus protocol
front end (hook `useBridgeForm`, file `src/unnamed/part_000`).

The source manipulates `bignumber.js` values; these are modelled by the type
`BigNum` below: a value is NaN, a signed infinity, or a finite rational.
The operations used by the source (`times`, `minus`, `dividedBy`, `gt`, `lt`,
`lte`, `isZero`) follow the semantics of the library: NaN propagates through
arithmetic and makes every comparison false, division of a nonzero finite
value by zero yields a signed infinity, and `0/0` yields NaN.
-/

/-- A bignumber.js value: NaN, a signed infinity (the Boolean is true for the
positive one), or a finite rational. -/
inductive BigNum where
  | nan : BigNum
  | inf : Bool → BigNum
  | fin : ℚ → BigNum
deriving DecidableEq, Repr

/-- Multiplication (`BigNumber.prototype.times`): NaN propagates, an infinity
times zero is NaN, otherwise signs multiply. -/
def BigNum.times : BigNum → BigNum → BigNum
  | .nan, _ => .nan
  | _, .nan => .nan
  | .inf s, .inf t => .inf (s == t)
  | .inf s, .fin q => if q = 0 then .nan else .inf (s == decide (0 < q))
  | .fin q, .inf s => if q = 0 then .nan else .inf (s == decide (0 < q))
  | .fin a, .fin b => .fin (a * b)

/-- Subtraction (`BigNumber.prototype.minus`): NaN propagates, and the
difference of two like-signed infinities is NaN. -/
def BigNum.minus : BigNum → BigNum → BigNum
  | .nan, _ => .nan
  | _, .nan => .nan
  | .inf s, .inf t => if s = t then .nan else .inf s
  | .inf s, .fin _ => .inf s
  | .fin _, .inf s => .inf (!s)
  | .fin a, .fin b => .fin (a - b)

/-- Division (`BigNumber.prototype.dividedBy`): NaN propagates, a nonzero
finite value divided by zero is a signed infinity, `0/0` and `inf/inf` are
NaN, and a finite value divided by an infinity is zero. -/
def BigNum.dividedBy : BigNum → BigNum → BigNum
  | .nan, _ => .nan
  | _, .nan => .nan
  | .inf _, .inf _ => .nan
  | .inf s, .fin q => .inf (s == decide (0 ≤ q))
  | .fin _, .inf _ => .fin 0
  | .fin a, .fin b =>
      if b = 0 then (if a = 0 then .nan else .inf (decide (0 < a))) else .fin (a / b)

/-- Strict order (`BigNumber.prototype.lt`): any comparison involving NaN is
false; the infinities bound the finite values. -/
def BigNum.lt : BigNum → BigNum → Bool
  | .nan, _ => false
  | _, .nan => false
  | .inf s, .inf t => !s && t
  | .inf s, .fin _ => !s
  | .fin _, .inf t => t
  | .fin a, .fin b => decide (a < b)

/-- Strict order (`BigNumber.prototype.gt`), the mirror of `BigNum.lt`. -/
def BigNum.gt (x y : BigNum) : Bool := BigNum.lt y x

/-- Non-strict order (`BigNumber.prototype.lte`): any comparison involving NaN
is false. -/
def BigNum.lte : BigNum → BigNum → Bool
  | .nan, _ => false
  | _, .nan => false
  | .inf s, .inf t => !s || t
  | .inf s, .fin _ => !s
  | .fin _, .inf t => t
  | .fin a, .fin b => decide (a ≤ b)

/-- Zero test (`BigNumber.prototype.isZero`): true exactly on the finite
value zero; false on NaN and the infinities. -/
def BigNum.isZero : BigNum → Bool
  | .fin a => decide (a = 0)
  | _ => false

/-- Value of a list of decimal digits, read left to right; `none` when a
character is not a decimal digit. The empty list has value zero. -/
def digitsVal? (l : List Char) : Option Nat :=
  l.foldlM (fun acc c => if c.isDigit then some (acc * 10 + (c.toNat - 48)) else none) 0

/-- The bignumber.js string constructor, `new BigNumber(v)`, on the plain
decimal formats relevant to the bridge form: an optional sign followed by
decimal digits with at most one decimal point and at least one digit. Any
other string (in particular the empty string and non-numeric text) yields
NaN, as the library constructor does. -/
def BigNum.ofString (s : String) : BigNum :=
  let cs := s.toList
  let signedBody : Bool × List Char :=
    match cs with
    | '-' :: r => (true, r)
    | '+' :: r => (false, r)
    | r => (false, r)
  let neg := signedBody.1
  let body := signedBody.2
  let intPart := body.takeWhile (fun c => c != '.')
  let rest := body.dropWhile (fun c => c != '.')
  let fracPart : List Char := match rest with | [] => [] | _ :: t => t
  if body.isEmpty || (intPart.isEmpty && fracPart.isEmpty) then .nan
  else
    match digitsVal? intPart, digitsVal? fracPart with
    | some i, some f =>
        let q : ℚ := (i : ℚ) + (f : ℚ) / ((10 : ℚ) ^ fracPart.length)
        .fin (if neg then -q else q)
    | _, _ => .nan

/-- The bridge status record consumed by `useBridgeForm`
(`getXvsBridgeStatusData`, lines 72-91 of the source). -/
structure XvsBridgeStatusData where
  maxSingleTransactionLimitUsd : BigNum
  maxDailyLimitUsd : BigNum
  totalTransferredLast24HourUsd : BigNum
  dailyLimitResetTimestamp : BigNum
deriving DecidableEq, Repr

/-- Lines 80-91 of the source: the pair
`[remainingXvsDailyLimitUsd, remainingXvsDailyLimitTokens]`. When status data
is present, the remaining USD capacity is
`maxDailyLimitUsd.minus(totalTransferredLast24HourUsd)` and the token
equivalent divides it by the price unless the price `isZero`, in which case it
is zero; when status data is absent both components are zero. -/
def remainingXvsDailyLimits (getXvsBridgeStatusData : Option XvsBridgeStatusData)
    (xvsPriceUsd : BigNum) : BigNum × BigNum :=
  match getXvsBridgeStatusData with
  | some d =>
      let remainingUsdValue := d.maxDailyLimitUsd.minus d.totalTransferredLast24HourUsd
      let remaningTokensAmount :=
        if !xvsPriceUsd.isZero then remainingUsdValue.dividedBy xvsPriceUsd else BigNum.fin 0
      (remainingUsdValue, remaningTokensAmount)
  | none => (BigNum.fin 0, BigNum.fin 0)

/-- Modelled from the spec: the formatting helpers the source applies to the
carried amounts (`formatTokensToReadableValue`, `convertDollarsToCents`,
`formatCentsToReadableValue`, imported from `utilities`) are missing from the
given sources; per the spec each violation carries the readable equivalent
limit amounts in token and USD form, so a violation here carries the values
the source passes to those helpers. A violation is an issue added by
`validateAmountMantissa` through `ctx.addIssue`, identified by its `path`. -/
inductive Violation where
  | singleTransactionLimitExceeded (readableAmountTokens readableAmountUsd : BigNum)
  | dailyTransactionLimitExceeded (readableAmountTokens readableAmountUsd resetAt : BigNum)
  | doesNotHaveEnoughXvs
deriving DecidableEq, Repr

/-- True exactly on the single-transaction-limit violation. -/
def Violation.isSingleLimit : Violation → Bool
  | .singleTransactionLimitExceeded _ _ => true
  | _ => false

/-- True exactly on the daily-limit violation. -/
def Violation.isDailyLimit : Violation → Bool
  | .dailyTransactionLimitExceeded _ _ _ => true
  | _ => false

/-- True exactly on the insufficient-balance violation. -/
def Violation.isInsufficientBalance : Violation → Bool
  | .doesNotHaveEnoughXvs => true
  | _ => false

/-- Lines 139-140 of the source:
`fromUnixTime(dailyLimitResetTimestamp.toNumber())` followed by
`date.setDate(date.getDate() + 1)`, that is, one day after the reset
timestamp. The calendar-day step is modelled as 86400 seconds on the epoch
value; NaN and infinite timestamps stay as they are. -/
def addOneDay : BigNum → BigNum
  | .fin t => .fin (t + 86400)
  | x => x

/-- The values `validateAmountMantissa` closes over in `useBridgeForm`:
the token price, the wallet balance, and the limit data derived from the
bridge status (lines 41-91 and 162-171 of the source). -/
structure BridgeFormEnv where
  xvsPriceUsd : BigNum
  walletBalanceTokens : BigNum
  maxSingleTransactionLimitUsd : BigNum
  remainingXvsDailyLimitUsd : BigNum
  remainingXvsDailyLimitTokens : BigNum
  dailyLimitResetTimestamp : BigNum
deriving DecidableEq, Repr

/-- Lines 72-91 of the source, assembling the environment of
`validateAmountMantissa` from the optional bridge status. The source writes
`getXvsBridgeStatusData?.field || new BigNumber(0)`; a BigNumber object is
always truthy in JavaScript, so this is exactly a default on a missing
status record. -/
def mkBridgeFormEnv (getXvsBridgeStatusData : Option XvsBridgeStatusData)
    (xvsPriceUsd walletBalanceTokens : BigNum) : BridgeFormEnv :=
  let limits := remainingXvsDailyLimits getXvsBridgeStatusData xvsPriceUsd
  { xvsPriceUsd := xvsPriceUsd
    walletBalanceTokens := walletBalanceTokens
    maxSingleTransactionLimitUsd :=
      (getXvsBridgeStatusData.map (fun d => d.maxSingleTransactionLimitUsd)).getD (BigNum.fin 0)
    remainingXvsDailyLimitUsd := limits.1
    remainingXvsDailyLimitTokens := limits.2
    dailyLimitResetTimestamp :=
      (getXvsBridgeStatusData.map (fun d => d.dailyLimitResetTimestamp)).getD (BigNum.fin 0) }

/-- Lines 106-160 of the source, after `new BigNumber(v)` has produced
`xvsAmountTokens`: the three violation checks, each evaluated on its own and
appending its issue, in source order (single-transaction limit, daily limit,
balance). -/
def validateAmountCore (env : BridgeFormEnv) (xvsAmountTokens : BigNum) : List Violation :=
  let xvsAmountUsd := xvsAmountTokens.times env.xvsPriceUsd
  let isSingleTransactionLimitExceeded := xvsAmountUsd.gt env.maxSingleTransactionLimitUsd
  let maxSingleTransactionLimitTokens :=
    env.maxSingleTransactionLimitUsd.dividedBy env.xvsPriceUsd
  let doesNotHaveEnoughXvs := env.walletBalanceTokens.lt xvsAmountTokens
  let isDailyTransactionLimitExceeded := xvsAmountUsd.gt env.remainingXvsDailyLimitUsd
  (if isSingleTransactionLimitExceeded then
      [Violation.singleTransactionLimitExceeded maxSingleTransactionLimitTokens
        env.maxSingleTransactionLimitUsd]
    else [])
  ++ (if isDailyTransactionLimitExceeded then
      [Violation.dailyTransactionLimitExceeded env.remainingXvsDailyLimitTokens
        env.remainingXvsDailyLimitUsd (addOneDay env.dailyLimitResetTimestamp)]
    else [])
  ++ (if doesNotHaveEnoughXvs then [Violation.doesNotHaveEnoughXvs] else [])

/-- Lines 104-161 of the source, `validateAmountMantissa`: parse the entered
string with the BigNumber constructor, then run the three checks. -/
def validateAmountMantissa (env : BridgeFormEnv) (v : String) : List Violation :=
  validateAmountCore env (BigNum.ofString v)

/-- An issue recorded against the `amountTokens` field of the form schema:
either the too-small issue of `z.string().min(1)` or a custom issue of
`validateAmountMantissa`. -/
inductive AmountIssue where
  | tooSmall : AmountIssue
  | custom : Violation → AmountIssue
deriving DecidableEq, Repr

/-- Line 177 of the source,
`amountTokens: z.string().min(1).superRefine(validateAmountMantissa)`: the
minimum-length check adds its issue for the empty string, and zod then still
runs the refinement (a failed string check marks the parse dirty, not
aborted), so `validateAmountMantissa` receives the string in either case. -/
def amountTokensSchemaIssues (env : BridgeFormEnv) (v : String) : List AmountIssue :=
  (if v.length < 1 then [AmountIssue.tooSmall] else [])
  ++ (validateAmountMantissa env v).map AmountIssue.custom

/-- Lines 93-102 of the source, `validateBridgeFeeMantissa`: a value that is
not a BigNumber passes; a BigNumber fee passes exactly when it is positive
and at most the native-token balance. The `unknown` argument is modelled as
an optional BigNum, `none` standing for any non-BigNumber value such as
`undefined`. -/
def validateBridgeFeeMantissa (nativeTokenBalanceMantissa : BigNum) :
    Option BigNum → Bool
  | some bridgeFeeMantissa =>
      bridgeFeeMantissa.gt (BigNum.fin 0) && bridgeFeeMantissa.lte nativeTokenBalanceMantissa
  | none => true

/-- Comparison against NaN on the right is always false. -/
theorem BigNum.lt_nan (x : BigNum) : BigNum.lt x BigNum.nan = false := by
  cases x <;> rfl

/-- A NaN amount (a malformed amount string) produces no violations: NaN makes
both limit comparisons and the balance comparison false. -/
theorem validateAmountCore_nan (env : BridgeFormEnv) :
    validateAmountCore env BigNum.nan = [] := by
  simp [validateAmountCore, BigNum.times, BigNum.gt, BigNum.lt_nan]

/-- Closed form of the three checks on finite rational inputs: each violation
is present exactly when its condition holds, carrying the limit data the
source formats into its message. -/
theorem validateAmountCore_fin_eq (a p bal slimit rdUsd : ℚ) (rdTok ts : BigNum) :
    validateAmountCore
        ⟨BigNum.fin p, BigNum.fin bal, BigNum.fin slimit, BigNum.fin rdUsd, rdTok, ts⟩
        (BigNum.fin a) =
      (if slimit < a * p then
        [Violation.singleTransactionLimitExceeded
          ((BigNum.fin slimit).dividedBy (BigNum.fin p)) (BigNum.fin slimit)]
      else [])
      ++ (if rdUsd < a * p then
        [Violation.dailyTransactionLimitExceeded rdTok (BigNum.fin rdUsd) (addOneDay ts)]
      else [])
      ++ (if bal < a then [Violation.doesNotHaveEnoughXvs] else []) := by
  by_cases h1 : slimit < a * p <;> by_cases h2 : rdUsd < a * p <;> by_cases h3 : bal < a <;>
    simp [validateAmountCore, BigNum.times, BigNum.gt, BigNum.lt, h1, h2, h3]

/-- The single-transaction violation is reported exactly when the USD value of
the amount exceeds the single-transaction limit. -/
theorem hasSingleLimit_iff (a p bal slimit rdUsd : ℚ) (rdTok ts : BigNum) :
    ((validateAmountCore
        ⟨BigNum.fin p, BigNum.fin bal, BigNum.fin slimit, BigNum.fin rdUsd, rdTok, ts⟩
        (BigNum.fin a)).any Violation.isSingleLimit) = true ↔ slimit < a * p := by
  rw [validateAmountCore_fin_eq]
  by_cases h1 : slimit < a * p <;> by_cases h2 : rdUsd < a * p <;> by_cases h3 : bal < a <;>
    simp [h1, h2, h3, Violation.isSingleLimit, Violation.isDailyLimit,
      Violation.isInsufficientBalance]

/-- The daily violation is reported exactly when the USD value of the amount
exceeds the remaining daily USD capacity. -/
theorem hasDailyLimit_iff (a p bal slimit rdUsd : ℚ) (rdTok ts : BigNum) :
    ((validateAmountCore
        ⟨BigNum.fin p, BigNum.fin bal, BigNum.fin slimit, BigNum.fin rdUsd, rdTok, ts⟩
        (BigNum.fin a)).any Violation.isDailyLimit) = true ↔ rdUsd < a * p := by
  rw [validateAmountCore_fin_eq]
  by_cases h1 : slimit < a * p <;> by_cases h2 : rdUsd < a * p <;> by_cases h3 : bal < a <;>
    simp [h1, h2, h3, Violation.isSingleLimit, Violation.isDailyLimit,
      Violation.isInsufficientBalance]

/-- The insufficient-balance violation is reported exactly when the wallet
balance is below the amount. -/
theorem hasInsufficientBalance_iff (a p bal slimit rdUsd : ℚ) (rdTok ts : BigNum) :
    ((validateAmountCore
        ⟨BigNum.fin p, BigNum.fin bal, BigNum.fin slimit, BigNum.fin rdUsd, rdTok, ts⟩
        (BigNum.fin a)).any Violation.isInsufficientBalance) = true ↔ bal < a := by
  rw [validateAmountCore_fin_eq]
  by_cases h1 : slimit < a * p <;> by_cases h2 : rdUsd < a * p <;> by_cases h3 : bal < a <;>
    simp [h1, h2, h3, Violation.isSingleLimit, Violation.isDailyLimit,
      Violation.isInsufficientBalance]

/-- Reduction of the environment assembly on a present status record: the
limit fields are taken from the record and the remaining daily pair from its
derivation. -/
theorem mkBridgeFormEnv_fin (slim maxd total ts p bal : BigNum) :
    mkBridgeFormEnv (some ⟨slim, maxd, total, ts⟩) p bal =
      ⟨p, bal, slim, BigNum.minus maxd total,
        (remainingXvsDailyLimits (some ⟨slim, maxd, total, ts⟩) p).2, ts⟩ := rfl

/-- C1: for every input to the amount validator with finite rational data, if
the USD value of the amount is at most the single-transaction limit and at
most the remaining daily USD capacity, and the amount is at most the wallet
balance, then the returned violation list is empty. -/
theorem amount_within_limits_is_valid (a p bal slimit rdUsd : ℚ) (rdTok ts : BigNum)
    (h1 : a * p ≤ slimit) (h2 : a * p ≤ rdUsd) (h3 : a ≤ bal) :
    validateAmountCore
        ⟨BigNum.fin p, BigNum.fin bal, BigNum.fin slimit, BigNum.fin rdUsd, rdTok, ts⟩
        (BigNum.fin a) = [] := by
  rw [validateAmountCore_fin_eq]
  simp [not_lt.mpr h1, not_lt.mpr h2, not_lt.mpr h3]

/-- Witness for C1, the valid scenario of the spec: balance 100, amount 50,
price 1 USD, single limit 1000 USD, remaining daily 1000 USD give no
violations. -/
theorem amount_within_limits_is_valid_witness :
    validateAmountCore
        ⟨BigNum.fin 1, BigNum.fin 100, BigNum.fin 1000, BigNum.fin 1000, BigNum.fin 1000,
          BigNum.fin 0⟩
        (BigNum.fin 50) = [] :=
  amount_within_limits_is_valid 50 1 100 1000 1000 (BigNum.fin 1000) (BigNum.fin 0)
    (by norm_num) (by norm_num) (by norm_num)

/-- C2: the single-transaction violation is reported exactly when
amountTokens times tokenPriceUsd exceeds maxSingleTransactionLimitUsd; in
particular the spec scenario balance 100, amount 50, price 30 USD, single
limit 1000 USD (amount worth 1500 USD) reports it. -/
theorem singleLimit_violation_iff :
    (∀ (a p bal slimit rdUsd : ℚ) (rdTok ts : BigNum),
      ((validateAmountCore
          ⟨BigNum.fin p, BigNum.fin bal, BigNum.fin slimit, BigNum.fin rdUsd, rdTok, ts⟩
          (BigNum.fin a)).any Violation.isSingleLimit) = true ↔ slimit < a * p) ∧
    ((validateAmountCore
        ⟨BigNum.fin 30, BigNum.fin 100, BigNum.fin 1000, BigNum.fin 100000, BigNum.fin 100000,
          BigNum.fin 0⟩
        (BigNum.fin 50)).any Violation.isSingleLimit) = true :=
  ⟨hasSingleLimit_iff,
    (hasSingleLimit_iff 50 30 100 1000 100000 (BigNum.fin 100000) (BigNum.fin 0)).mpr
      (by norm_num)⟩

/-- C3: the remaining daily USD capacity is maxDailyLimitUsd minus
totalTransferredLast24HourUsd, and the daily violation is reported exactly
when amountTokens times tokenPriceUsd exceeds it; in particular the spec
scenario balance 100, amount 50, price 1 USD, daily limit 1000 USD, 980 USD
already used (20 USD remaining) reports it. -/
theorem dailyLimit_violation_iff :
    (∀ (slim maxd total ts p bal a : ℚ),
      (remainingXvsDailyLimits
          (some ⟨BigNum.fin slim, BigNum.fin maxd, BigNum.fin total, BigNum.fin ts⟩)
          (BigNum.fin p)).1 = BigNum.fin (maxd - total) ∧
      (((validateAmountCore
          (mkBridgeFormEnv
            (some ⟨BigNum.fin slim, BigNum.fin maxd, BigNum.fin total, BigNum.fin ts⟩)
            (BigNum.fin p) (BigNum.fin bal))
          (BigNum.fin a)).any Violation.isDailyLimit) = true ↔ maxd - total < a * p)) ∧
    ((validateAmountCore
        (mkBridgeFormEnv
          (some ⟨BigNum.fin 1000, BigNum.fin 1000, BigNum.fin 980, BigNum.fin 0⟩)
          (BigNum.fin 1) (BigNum.fin 100))
        (BigNum.fin 50)).any Violation.isDailyLimit) = true := by
  constructor
  · intro slim maxd total ts p bal a
    refine ⟨rfl, ?_⟩
    rw [mkBridgeFormEnv_fin]
    have hm : BigNum.minus (BigNum.fin maxd) (BigNum.fin total) = BigNum.fin (maxd - total) := rfl
    rw [hm]
    exact hasDailyLimit_iff a p bal slim (maxd - total) _ _
  · rw [mkBridgeFormEnv_fin]
    have hm : BigNum.minus (BigNum.fin 1000) (BigNum.fin 980) = BigNum.fin 20 := by
      show BigNum.fin (1000 - 980) = BigNum.fin 20
      norm_num
    rw [hm]
    exact (hasDailyLimit_iff 50 1 100 1000 20 _ _).mpr (by norm_num)

/-- C4: the insufficient-balance violation is reported exactly when the wallet
balance is below the amount; in particular the spec scenario balance 10,
amount 50 with the other limits satisfied yields exactly the
insufficient-balance violation and nothing else. -/
theorem insufficientBalance_violation_iff :
    (∀ (a p bal slimit rdUsd : ℚ) (rdTok ts : BigNum),
      ((validateAmountCore
          ⟨BigNum.fin p, BigNum.fin bal, BigNum.fin slimit, BigNum.fin rdUsd, rdTok, ts⟩
          (BigNum.fin a)).any Violation.isInsufficientBalance) = true ↔ bal < a) ∧
    validateAmountCore
        ⟨BigNum.fin 1, BigNum.fin 10, BigNum.fin 1000, BigNum.fin 1000, BigNum.fin 1000,
          BigNum.fin 0⟩
        (BigNum.fin 50) = [Violation.doesNotHaveEnoughXvs] :=
  ⟨hasInsufficientBalance_iff, by rw [validateAmountCore_fin_eq]; norm_num⟩

/-- C5: the three checks are evaluated independently, never short-circuited:
each violation is present exactly when its own condition holds, whatever the
other two conditions are; in particular the spec scenario balance 10, amount
5000, price 1 USD, single limit 100 USD, daily capacity effectively unlimited
reports both the single-transaction and the insufficient-balance violations
together. -/
theorem violations_independent :
    (∀ (a p bal slimit rdUsd : ℚ) (rdTok ts : BigNum),
      (((validateAmountCore
          ⟨BigNum.fin p, BigNum.fin bal, BigNum.fin slimit, BigNum.fin rdUsd, rdTok, ts⟩
          (BigNum.fin a)).any Violation.isSingleLimit) = true ↔ slimit < a * p) ∧
      (((validateAmountCore
          ⟨BigNum.fin p, BigNum.fin bal, BigNum.fin slimit, BigNum.fin rdUsd, rdTok, ts⟩
          (BigNum.fin a)).any Violation.isDailyLimit) = true ↔ rdUsd < a * p) ∧
      (((validateAmountCore
          ⟨BigNum.fin p, BigNum.fin bal, BigNum.fin slimit, BigNum.fin rdUsd, rdTok, ts⟩
          (BigNum.fin a)).any Violation.isInsufficientBalance) = true ↔ bal < a)) ∧
    (((validateAmountCore
        ⟨BigNum.fin 1, BigNum.fin 10, BigNum.fin 100, BigNum.fin 1000000000,
          BigNum.fin 1000000000, BigNum.fin 0⟩
        (BigNum.fin 5000)).any Violation.isSingleLimit) = true ∧
      ((validateAmountCore
        ⟨BigNum.fin 1, BigNum.fin 10, BigNum.fin 100, BigNum.fin 1000000000,
          BigNum.fin 1000000000, BigNum.fin 0⟩
        (BigNum.fin 5000)).any Violation.isInsufficientBalance) = true) :=
  ⟨fun a p bal slimit rdUsd rdTok ts =>
    ⟨hasSingleLimit_iff a p bal slimit rdUsd rdTok ts,
      hasDailyLimit_iff a p bal slimit rdUsd rdTok ts,
      hasInsufficientBalance_iff a p bal slimit rdUsd rdTok ts⟩,
    (hasSingleLimit_iff 5000 1 10 100 1000000000 (BigNum.fin 1000000000) (BigNum.fin 0)).mpr
      (by norm_num),
    (hasInsufficientBalance_iff 5000 1 10 100 1000000000 (BigNum.fin 1000000000)
      (BigNum.fin 0)).mpr (by norm_num)⟩

/-- C6 counterexample: at tokenPriceUsd = -1 with one USD of remaining daily
capacity, the source computes remainingDailyTokens = -1 (the guard is
isZero, not positivity), while the claim demands 0 for a price that is not
positive. -/
theorem remainingTokens_positive_price_cex :
    ¬ ((remainingXvsDailyLimits
          (some ⟨BigNum.fin 0, BigNum.fin 1, BigNum.fin 0, BigNum.fin 0⟩)
          (BigNum.fin (-1))).2 =
        (if 0 < (-1 : ℚ) then
          (remainingXvsDailyLimits
              (some ⟨BigNum.fin 0, BigNum.fin 1, BigNum.fin 0, BigNum.fin 0⟩)
              (BigNum.fin (-1))).1.dividedBy (BigNum.fin (-1))
        else BigNum.fin 0)) := by
  have hv : (remainingXvsDailyLimits
      (some ⟨BigNum.fin 0, BigNum.fin 1, BigNum.fin 0, BigNum.fin 0⟩)
      (BigNum.fin (-1))).2 = BigNum.fin (-1) := by
    norm_num [remainingXvsDailyLimits, BigNum.minus, BigNum.isZero, BigNum.dividedBy]
  intro h
  rw [hv, if_neg (by norm_num : ¬ ((0 : ℚ) < -1))] at h
  injection h with h
  norm_num at h

/-- C6 amended: for a present status record and a finite price, the remaining
daily token capacity is the remaining daily USD capacity divided by the price
whenever the price is nonzero, and zero when the price is zero; in
particular a zero price yields zero and the computation is total, with no
division fault. -/
theorem remainingTokens_nonzero_price (st : XvsBridgeStatusData) (p : ℚ) :
    (remainingXvsDailyLimits (some st) (BigNum.fin p)).2 =
      if p = 0 then BigNum.fin 0
      else (remainingXvsDailyLimits (some st) (BigNum.fin p)).1.dividedBy (BigNum.fin p) := by
  by_cases hp : p = 0 <;> simp [remainingXvsDailyLimits, BigNum.isZero, hp]

/-- C7 counterexample: the non-numeric string abc is not rejected anywhere:
it passes the only upstream check (minimum length one), reaches the
validator as NaN, and the whole amountTokens field yields zero issues, so
the malformed string is accepted as valid rather than rejected before the
validator. -/
theorem malformed_amount_not_rejected_cex :
    BigNum.ofString ("abc") = BigNum.nan ∧
    amountTokensSchemaIssues
      ⟨BigNum.fin 1, BigNum.fin 100, BigNum.fin 1000, BigNum.fin 1000, BigNum.fin 1000,
        BigNum.fin 0⟩ "abc" = [] := by decide

/-- C7 amended: the only upstream check on amountTokens is the presence check
of minimum length one, which flags the empty string; there is no numeric
format check. A string the BigNumber constructor cannot parse reaches the
validator as NaN and yields zero violations, with no runtime failure, so the
issues of the field are exactly those of the presence check. -/
theorem malformed_amount_yields_no_issue (env : BridgeFormEnv) (s : String)
    (h : BigNum.ofString s = BigNum.nan) :
    validateAmountMantissa env s = [] ∧
    amountTokensSchemaIssues env s =
      (if s.length < 1 then [AmountIssue.tooSmall] else []) := by
  have hcore : validateAmountMantissa env s = [] := by
    unfold validateAmountMantissa
    rw [h]
    exact validateAmountCore_nan env
  refine ⟨hcore, ?_⟩
  unfold amountTokensSchemaIssues
  rw [hcore]
  simp

/-- Witness for C7 amended, at the non-numeric string xyz: it parses to NaN,
the validator returns no violations, and the field yields no issue at all. -/
theorem malformed_amount_yields_no_issue_witness :
    validateAmountMantissa
      ⟨BigNum.fin 2, BigNum.fin 50, BigNum.fin 500, BigNum.fin 500, BigNum.fin 250,
        BigNum.fin 0⟩ "xyz" = [] ∧
    amountTokensSchemaIssues
      ⟨BigNum.fin 2, BigNum.fin 50, BigNum.fin 500, BigNum.fin 500, BigNum.fin 250,
        BigNum.fin 0⟩ "xyz" = [] := by
  have h := malformed_amount_yields_no_issue
    ⟨BigNum.fin 2, BigNum.fin 50, BigNum.fin 500, BigNum.fin 500, BigNum.fin 250, BigNum.fin 0⟩
    "xyz" (by decide)
  exact ⟨h.1, by simpa using h.2⟩

/-- C8: on finite rational data the validator returns exactly the applicable
violations, and each carries its limit data: the single-transaction violation
carries the single-transaction limit in token form (the USD limit divided by
the price) and in USD form; the daily violation carries the remaining daily
capacity in token and USD form together with a reset instant one day (86400
seconds) after dailyLimitResetTimestamp. -/
theorem violation_payloads (slim maxd total ts p bal a : ℚ) :
    validateAmountCore
        (mkBridgeFormEnv
          (some ⟨BigNum.fin slim, BigNum.fin maxd, BigNum.fin total, BigNum.fin ts⟩)
          (BigNum.fin p) (BigNum.fin bal))
        (BigNum.fin a) =
      (if slim < a * p then
        [Violation.singleTransactionLimitExceeded
          ((BigNum.fin slim).dividedBy (BigNum.fin p)) (BigNum.fin slim)]
      else [])
      ++ (if maxd - total < a * p then
        [Violation.dailyTransactionLimitExceeded
          (remainingXvsDailyLimits
            (some ⟨BigNum.fin slim, BigNum.fin maxd, BigNum.fin total, BigNum.fin ts⟩)
            (BigNum.fin p)).2
          (BigNum.fin (maxd - total)) (BigNum.fin (ts + 86400))]
      else [])
      ++ (if bal < a then [Violation.doesNotHaveEnoughXvs] else []) := by
  rw [mkBridgeFormEnv_fin]
  have hm : BigNum.minus (BigNum.fin maxd) (BigNum.fin total) = BigNum.fin (maxd - total) := rfl
  rw [hm, validateAmountCore_fin_eq]
  rfl

/-- C9: a negative amount passes validation: when the wallet balance, the
price, the single-transaction limit and the remaining daily USD capacity are
all non-negative, a negative amount produces zero violations; it is neither
clamped nor rejected. -/
theorem negative_amount_is_valid (a p bal slimit rdUsd : ℚ) (rdTok ts : BigNum)
    (ha : a < 0) (hp : 0 ≤ p) (hbal : 0 ≤ bal) (hs : 0 ≤ slimit) (hd : 0 ≤ rdUsd) :
    validateAmountCore
        ⟨BigNum.fin p, BigNum.fin bal, BigNum.fin slimit, BigNum.fin rdUsd, rdTok, ts⟩
        (BigNum.fin a) = [] := by
  have hap : a * p ≤ 0 := mul_nonpos_iff.mpr (Or.inr ⟨ha.le, hp⟩)
  rw [validateAmountCore_fin_eq]
  simp [not_lt.mpr (hap.trans hs), not_lt.mpr (hap.trans hd), not_lt.mpr (ha.le.trans hbal)]

/-- Witness for C9: the amount -5 with balance 100, price 1 USD, single limit
1000 USD and remaining daily capacity 1000 USD produces no violations. -/
theorem negative_amount_is_valid_witness :
    validateAmountCore
        ⟨BigNum.fin 1, BigNum.fin 100, BigNum.fin 1000, BigNum.fin 1000, BigNum.fin 1000,
          BigNum.fin 0⟩
        (BigNum.fin (-5)) = [] :=
  negative_amount_is_valid (-5) 1 100 1000 1000 (BigNum.fin 1000) (BigNum.fin 0)
    (by norm_num) (by norm_num) (by norm_num) (by norm_num) (by norm_num)

/-- C10: the bridge-fee check accepts every value that is not a BigNumber,
and accepts a BigNumber fee exactly when it is strictly positive and at most
the native-token balance; on finite rationals this is the order on the
rationals. -/
theorem validateBridgeFee_spec :
    (∀ bal : BigNum, validateBridgeFeeMantissa bal none = true) ∧
    (∀ bal fee : BigNum,
      validateBridgeFeeMantissa bal (some fee) = true ↔
        (fee.gt (BigNum.fin 0) = true ∧ fee.lte bal = true)) ∧
    (∀ b f : ℚ,
      validateBridgeFeeMantissa (BigNum.fin b) (some (BigNum.fin f)) = true ↔
        (0 < f ∧ f ≤ b)) := by
  refine ⟨fun bal => rfl, fun bal fee => ?_, fun b f => ?_⟩
  · simp [validateBridgeFeeMantissa]
  · simp [validateBridgeFeeMantissa, BigNum.gt, BigNum.lt, BigNum.lte]
